import Mathlib

/-!
Verification of the token relay service
(`examples/realtime-next/server/token_server.py`).

The service exposes `POST /api/token`: it validates an optional JSON body
against the pydantic model `TokenRequest` (one field `model : str` with
default `"gpt-realtime"`), reads the `OPENAI_API_KEY` environment variable,
builds a fixed session payload, performs a single `httpx` POST to the
upstream client-secrets endpoint, and maps the upstream response to the
client response.

The embedding below is shallow: JSON values are an inductive type, the
environment's answer to the single outbound call is a parameter, and the
outbound requests actually issued are returned as a trace so that claims
about call counts and payload contents can be stated.  Unhandled Python
exceptions (httpx network errors, `resp.json()` decode errors,
`data.get` on a non-dict) are modelled explicitly, since FastAPI turns
them into a 500 Internal Server Error response rather than the handler's
own `HTTPException`s.
-/

/-- JSON values. -/
inductive Json where
  | null
  | bool (b : Bool)
  | num (n : Int)
  | str (s : String)
  | arr (elems : List Json)
  | obj (fields : List (String × Json))

/-- Whether a JSON value is an object (a Python `dict` after `resp.json()`). -/
def Json.isObj : Json → Bool
  | .obj _ => true
  | _ => false

/-- Whether a JSON value is a string. -/
def Json.isStr : Json → Bool
  | .str _ => true
  | _ => false

/-- The pydantic model `TokenRequest` (`model: str = "gpt-realtime"`). -/
structure TokenRequest where
  model : String

/-- The default for the `model` field of `TokenRequest`. -/
def defaultModel : String := "gpt-realtime"

/-- Validation failures FastAPI/pydantic can produce for the request body. -/
inductive ValidationError where
  | bodyRequired
      -- the body parameter `req: TokenRequest` has no default, so FastAPI
      -- requires a body; a request without one fails with "Field required"
  | notAnObject
      -- the body is JSON but not an object, so it cannot populate the model
  | modelNotString
      -- pydantic v2 rejects a non-string `model` value (no numeric coercion)

/-- FastAPI/pydantic validation of the inbound body (`none` = no body sent)
against `TokenRequest`.  An object body without a `model` key takes the
default; a non-string `model` is rejected; a missing or non-object body is
rejected.  This runs before the handler body. -/
def validateTokenRequest : Option Json → Except ValidationError TokenRequest
  | none => .error .bodyRequired
  | some (Json.obj fields) =>
    match fields.lookup "model" with
    | none => .ok ⟨defaultModel⟩
    | some (Json.str s) => .ok ⟨s⟩
    | some _ => .error .modelNotString
  | some _ => .error .notAnObject

/-- The outbound HTTPS request issued by `client.post`. -/
structure OutboundRequest where
  url : String
  authorization : String
  contentType : String
  body : Json
  timeout : Nat

/-- An upstream HTTP response as seen through `httpx`:
its status code, its raw text, and the result of `resp.json()`
(`none` when the body is not valid JSON, in which case `resp.json()`
raises). -/
structure UpstreamResponse where
  status : Nat
  text : String
  jsonBody : Option Json

/-- The environment's answer to the single outbound call: either an HTTP
response or an `httpx` failure (network error, or the 10 s timeout). -/
inductive UpstreamOutcome where
  | response (resp : UpstreamResponse)
  | networkFailure

/-- Python exceptions that escape the handler body uncaught. -/
inductive PyError where
  | httpxError
  | jsonDecodeError
  | attributeError

/-- What the handler body produces: a normal `JSONResponse` (status 200),
a raised `HTTPException`, or an uncaught Python exception. -/
inductive HandlerResult where
  | ok (body : Json)
  | httpException (status : Nat) (detail : Json)
  | unhandled (e : PyError)

/-- Python truthiness of a string: empty strings are falsy. -/
def strFalsy (s : String) : Bool := s = ""

/-- `not api_key` in the handler: `os.getenv` returned `None`, or the
variable is set to the empty string. -/
def keyFalsy : Option String → Bool
  | none => true
  | some s => strFalsy s

/-- The fixed upstream endpoint. -/
def upstreamUrl : String := "https://api.openai.com/v1/realtime/client_secrets"

/-- The two hardcoded mcp tool descriptors of the session payload. -/
def toolDescriptors : Json :=
  Json.arr
    [ Json.obj
        [ ("type", Json.str "mcp")
        , ("server_label", Json.str "deepwiki")
        , ("server_url", Json.str "https://mcp.deepwiki.com/sse")
        , ("require_approval", Json.str "always") ]
    , Json.obj
        [ ("type", Json.str "mcp")
        , ("server_label", Json.str "dnd")
        , ("server_url", Json.str "https://dmcp-server.deno.dev/sse")
        , ("require_approval", Json.str "always") ] ]

/-- The `payload` dictionary built by the handler. -/
def sessionPayload (model : String) : Json :=
  Json.obj
    [ ("session", Json.obj
        [ ("type", Json.str "realtime")
        , ("model", Json.str model)
        , ("tools", toolDescriptors) ]) ]

/-- The single outbound request: fixed URL, bearer credential, JSON
content type, the session payload as body, 10 s timeout. -/
def outboundRequest (apiKey model : String) : OutboundRequest :=
  { url := upstreamUrl
  , authorization := "Bearer " ++ apiKey
  , contentType := "application/json"
  , body := sessionPayload model
  , timeout := 10 }

/-- The handler body of `get_token`, given the value of `OPENAI_API_KEY`,
the validated request, and the environment's answer to the outbound call.
Returns the handler result together with the list of outbound requests
issued (attempted calls included). -/
def get_token (api_key : Option String) (req : TokenRequest)
    (upstream : UpstreamOutcome) : HandlerResult × List OutboundRequest :=
  if keyFalsy api_key then
    (.httpException 500 (Json.str "Missing OPENAI_API_KEY environment variable"), [])
  else
    let key := api_key.getD ""
    let outReq := outboundRequest key req.model
    match upstream with
    | .networkFailure => (.unhandled .httpxError, [outReq])
    | .response resp =>
      if 400 ≤ resp.status then
        let detail := match resp.jsonBody with
          | some j => j
          | none => Json.str resp.text
        (.httpException 502 (Json.obj [("upstream_error", detail)]), [outReq])
      else
        match resp.jsonBody with
        | none => (.unhandled .jsonDecodeError, [outReq])
        | some (Json.obj data) =>
          (.ok (Json.obj [("token", (data.lookup "value").getD Json.null)]), [outReq])
        | some _ => (.unhandled .attributeError, [outReq])

/-- The client-visible HTTP response. -/
structure Response where
  status : Nat
  body : Json

/-- FastAPI's rendering of the handler result: a `JSONResponse` is passed
through with status 200, a raised `HTTPException` becomes a response with
the detail under a `detail` key, and an uncaught exception becomes a
500 Internal Server Error. -/
def renderResult : HandlerResult → Response
  | .ok body => ⟨200, body⟩
  | .httpException status detail => ⟨status, Json.obj [("detail", detail)]⟩
  | .unhandled _ => ⟨500, Json.str "Internal Server Error"⟩

/-- FastAPI's 422 body for a request-validation failure. -/
def validationErrorBody : ValidationError → Json
  | .bodyRequired =>
    Json.obj [("detail", Json.arr
      [Json.obj [("loc", Json.arr [Json.str "body"]),
                 ("msg", Json.str "Field required")]])]
  | .notAnObject =>
    Json.obj [("detail", Json.arr
      [Json.obj [("loc", Json.arr [Json.str "body"]),
                 ("msg", Json.str "Input should be a valid dictionary")]])]
  | .modelNotString =>
    Json.obj [("detail", Json.arr
      [Json.obj [("loc", Json.arr [Json.str "body", Json.str "model"]),
                 ("msg", Json.str "Input should be a valid string")]])]

/-- The whole `POST /api/token` round trip: FastAPI validation of the raw
body, then the handler, then response rendering.  Also returns the trace
of outbound requests. -/
def handleRequest (api_key : Option String) (body : Option Json)
    (upstream : UpstreamOutcome) : Response × List OutboundRequest :=
  match validateTokenRequest body with
  | .error e => (⟨422, validationErrorBody e⟩, [])
  | .ok req =>
    let res := get_token api_key req upstream
    (renderResult res.1, res.2)

/-- Two sequential requests with the same key and body; each gets its own
upstream outcome.  The service holds no state, so the composition is just
the pair of independent runs with the concatenated call trace. -/
def runTwice (api_key : Option String) (body : Option Json)
    (u1 u2 : UpstreamOutcome) : (Response × Response) × List OutboundRequest :=
  let r1 := handleRequest api_key body u1
  let r2 := handleRequest api_key body u2
  ((r1.1, r2.1), r1.2 ++ r2.2)

/-- An outbound request with its Authorization header erased, used to
compare traces made with different secrets. -/
def stripAuth (r : OutboundRequest) : OutboundRequest :=
  { r with authorization := "" }

/-! ### Helper lemmas -/

theorem strFalsy_eq_false {s : String} (h : s ≠ "") : strFalsy s = false := by
  simp [strFalsy, h]

/-! ### Claims -/

/-- C1: when the upstream answers with a status below 400 and a JSON object
body, the operation returns 200 with `{"token": v}` when the body has a
string field `value = v`, and 200 with `{"token": null}` (without failing)
when the body has no `value` field. -/
theorem issue_token_success (k : String) (hk : k ≠ "") (body : Option Json)
    (req : TokenRequest) (hb : validateTokenRequest body = .ok req)
    (resp : UpstreamResponse) (hs : resp.status < 400)
    (data : List (String × Json)) (hj : resp.jsonBody = some (Json.obj data)) :
    (∀ v : String, data.lookup "value" = some (Json.str v) →
      (handleRequest (some k) body (.response resp)).1
        = ⟨200, Json.obj [("token", Json.str v)]⟩) ∧
    (data.lookup "value" = none →
      (handleRequest (some k) body (.response resp)).1
        = ⟨200, Json.obj [("token", Json.null)]⟩) := by
  have hk' : strFalsy k = false := strFalsy_eq_false hk
  have hs' : ¬ 400 ≤ resp.status := Nat.not_le.mpr hs
  constructor
  · intro v hv
    simp [handleRequest, hb, get_token, keyFalsy, hk', hs', hj, hv, renderResult]
  · intro hv
    simp [handleRequest, hb, get_token, keyFalsy, hk', hs', hj, hv, renderResult]

/-- Witness for C1 at concrete inputs: upstream 200 with
`{"value": "secret-abc"}` gives `{"token": "secret-abc"}`, and upstream 200
with `{}` gives `{"token": null}`. -/
theorem issue_token_success_witness :
    (handleRequest (some "sk-test") (some (Json.obj []))
        (.response ⟨200, "", some (Json.obj [("value", Json.str "secret-abc")])⟩)).1
      = ⟨200, Json.obj [("token", Json.str "secret-abc")]⟩ ∧
    (handleRequest (some "sk-test") (some (Json.obj []))
        (.response ⟨200, "", some (Json.obj [])⟩)).1
      = ⟨200, Json.obj [("token", Json.null)]⟩ :=
  ⟨(issue_token_success "sk-test" (by decide) (some (Json.obj []))
      ⟨defaultModel⟩ rfl
      ⟨200, "", some (Json.obj [("value", Json.str "secret-abc")])⟩ (by decide)
      [("value", Json.str "secret-abc")] rfl).1 "secret-abc" rfl,
   (issue_token_success "sk-test" (by decide) (some (Json.obj []))
      ⟨defaultModel⟩ rfl
      ⟨200, "", some (Json.obj [])⟩ (by decide)
      [] rfl).2 rfl⟩

/-- C2: when `OPENAI_API_KEY` is absent or empty, the operation fails with
a 500 `HTTPException` carrying the static configuration message, and the
outbound call trace is empty. -/
theorem missing_key_config_error (api_key : Option String)
    (hk : keyFalsy api_key = true) (body : Option Json) (req : TokenRequest)
    (hb : validateTokenRequest body = .ok req) (u : UpstreamOutcome) :
    (handleRequest api_key body u).1
      = ⟨500, Json.obj [("detail",
          Json.str "Missing OPENAI_API_KEY environment variable")]⟩ ∧
    (handleRequest api_key body u).2 = [] := by
  constructor <;> simp [handleRequest, hb, get_token, hk, renderResult]

/-- Witness for C2: with the key unset and also with the key empty, the
response is the 500 configuration error and no outbound call happens. -/
theorem missing_key_config_error_witness :
    ((handleRequest none (some (Json.obj [])) .networkFailure).1
      = ⟨500, Json.obj [("detail",
          Json.str "Missing OPENAI_API_KEY environment variable")]⟩ ∧
     (handleRequest none (some (Json.obj [])) .networkFailure).2 = []) ∧
    ((handleRequest (some "") (some (Json.obj [])) .networkFailure).1
      = ⟨500, Json.obj [("detail",
          Json.str "Missing OPENAI_API_KEY environment variable")]⟩ ∧
     (handleRequest (some "") (some (Json.obj [])) .networkFailure).2 = []) :=
  ⟨missing_key_config_error none rfl (some (Json.obj [])) ⟨defaultModel⟩ rfl
      .networkFailure,
   missing_key_config_error (some "") (by decide) (some (Json.obj []))
      ⟨defaultModel⟩ rfl .networkFailure⟩

/-- C3: when the upstream answers with a status ≥ 400, the operation
returns a 502 response whose body carries, under the `upstream_error` key
(inside FastAPI's `detail` wrapper), the upstream JSON body when it parses
and the raw upstream text otherwise. -/
theorem upstream_error_502 (k : String) (hk : k ≠ "") (body : Option Json)
    (req : TokenRequest) (hb : validateTokenRequest body = .ok req)
    (resp : UpstreamResponse) (hs : 400 ≤ resp.status) :
    (∀ j, resp.jsonBody = some j →
      (handleRequest (some k) body (.response resp)).1
        = ⟨502, Json.obj [("detail", Json.obj [("upstream_error", j)])]⟩) ∧
    (resp.jsonBody = none →
      (handleRequest (some k) body (.response resp)).1
        = ⟨502, Json.obj [("detail",
            Json.obj [("upstream_error", Json.str resp.text)])]⟩) := by
  have hk' : strFalsy k = false := strFalsy_eq_false hk
  constructor
  · intro j hj
    simp [handleRequest, hb, get_token, keyFalsy, hk', hs, hj, renderResult]
  · intro hj
    simp [handleRequest, hb, get_token, keyFalsy, hk', hs, hj, renderResult]

/-- Witness for C3: upstream 401 with JSON body `{"error": "bad key"}`
yields the 502 response with that JSON under `upstream_error`. -/
theorem upstream_error_502_witness :
    (handleRequest (some "sk-test") (some (Json.obj []))
        (.response ⟨401, "", some (Json.obj [("error", Json.str "bad key")])⟩)).1
      = ⟨502, Json.obj [("detail", Json.obj [("upstream_error",
          Json.obj [("error", Json.str "bad key")])])]⟩ :=
  (upstream_error_502 "sk-test" (by decide) (some (Json.obj []))
      ⟨defaultModel⟩ rfl
      ⟨401, "", some (Json.obj [("error", Json.str "bad key")])⟩ (by decide)).1
    (Json.obj [("error", Json.str "bad key")]) rfl

/-- Whenever the key is non-falsy, the handler body issues exactly the one
outbound request built from the key and the requested model, whatever the
upstream outcome. -/
theorem get_token_calls (k : String) (hk : strFalsy k = false)
    (req : TokenRequest) (u : UpstreamOutcome) :
    (get_token (some k) req u).2 = [outboundRequest k req.model] := by
  cases u with
  | networkFailure => simp [get_token, keyFalsy, hk]
  | response resp =>
    by_cases hs : 400 ≤ resp.status
    · simp [get_token, keyFalsy, hk, hs]
    · cases hj : resp.jsonBody with
      | none => simp [get_token, keyFalsy, hk, hs, hj]
      | some j => cases j <;> simp [get_token, keyFalsy, hk, hs, hj]

/-- The round trip issues exactly the one outbound request when the body
validates and the key is non-falsy. -/
theorem handleRequest_calls (k : String) (hk : strFalsy k = false)
    (body : Option Json) (req : TokenRequest)
    (hb : validateTokenRequest body = .ok req) (u : UpstreamOutcome) :
    (handleRequest (some k) body u).2 = [outboundRequest k req.model] := by
  simp [handleRequest, hb, get_token_calls k hk req u]

/-- Counterexample to C4: a request with no body at all is not accepted —
FastAPI rejects it with a 422 validation error before the handler runs,
no outbound request is built, and the response is not a 200. -/
theorem default_model_missing_body_cex :
    (handleRequest (some "sk-test") none
        (.response ⟨200, "", some (Json.obj [])⟩)).1.status = 422 ∧
    (handleRequest (some "sk-test") none
        (.response ⟨200, "", some (Json.obj [])⟩)).1.status ≠ 200 ∧
    (handleRequest (some "sk-test") none
        (.response ⟨200, "", some (Json.obj [])⟩)).2 = [] :=
  ⟨rfl, by decide, rfl⟩

/-- C4 (amended): a JSON object body that omits the `model` field is
accepted and the outbound payload uses the default model `"gpt-realtime"`;
a request with no body at all is instead rejected with a 422 validation
error and no outbound call. -/
theorem default_model_omitted_field (k : String) (hk : k ≠ "")
    (fields : List (String × Json)) (hf : fields.lookup "model" = none)
    (u : UpstreamOutcome) :
    validateTokenRequest (some (Json.obj fields)) = .ok ⟨defaultModel⟩ ∧
    (handleRequest (some k) (some (Json.obj fields)) u).2
      = [outboundRequest k defaultModel] ∧
    (handleRequest (some k) none u).1.status = 422 ∧
    (handleRequest (some k) none u).2 = [] := by
  have hv : validateTokenRequest (some (Json.obj fields)) = .ok ⟨defaultModel⟩ := by
    simp [validateTokenRequest, hf]
  exact ⟨hv, handleRequest_calls k (strFalsy_eq_false hk) _ ⟨defaultModel⟩ hv u,
         rfl, rfl⟩

/-- Witness for the amended C4 at a concrete object body `{}`. -/
theorem default_model_omitted_field_witness :
    validateTokenRequest (some (Json.obj [])) = .ok ⟨defaultModel⟩ ∧
    (handleRequest (some "sk-test") (some (Json.obj [])) .networkFailure).2
      = [outboundRequest "sk-test" defaultModel] ∧
    (handleRequest (some "sk-test") none .networkFailure).1.status = 422 ∧
    (handleRequest (some "sk-test") none .networkFailure).2 = [] :=
  default_model_omitted_field "sk-test" (by decide) [] rfl .networkFailure

/-- C5: given a non-empty key, every request issues exactly one outbound
request, with the fixed URL, `Bearer` credential, JSON content type,
10-second timeout, and the payload whose session has type `"realtime"`,
the requested model verbatim, and the two fixed mcp tool descriptors. -/
theorem outbound_call_shape (k : String) (hk : k ≠ "") (body : Option Json)
    (req : TokenRequest) (hb : validateTokenRequest body = .ok req)
    (u : UpstreamOutcome) :
    (handleRequest (some k) body u).2
      = [{ url := "https://api.openai.com/v1/realtime/client_secrets"
         , authorization := "Bearer " ++ k
         , contentType := "application/json"
         , body := Json.obj
             [ ("session", Json.obj
                 [ ("type", Json.str "realtime")
                 , ("model", Json.str req.model)
                 , ("tools", Json.arr
                     [ Json.obj
                         [ ("type", Json.str "mcp")
                         , ("server_label", Json.str "deepwiki")
                         , ("server_url", Json.str "https://mcp.deepwiki.com/sse")
                         , ("require_approval", Json.str "always") ]
                     , Json.obj
                         [ ("type", Json.str "mcp")
                         , ("server_label", Json.str "dnd")
                         , ("server_url", Json.str "https://dmcp-server.deno.dev/sse")
                         , ("require_approval", Json.str "always") ] ]) ]) ]
         , timeout := 10 }] := by
  rw [handleRequest_calls k (strFalsy_eq_false hk) body req hb u]
  rfl

/-- Witness for C5 at body `{"model": "my-model"}`. -/
theorem outbound_call_shape_witness :
    (handleRequest (some "sk-test")
        (some (Json.obj [("model", Json.str "my-model")])) .networkFailure).2
      = [{ url := "https://api.openai.com/v1/realtime/client_secrets"
         , authorization := "Bearer " ++ "sk-test"
         , contentType := "application/json"
         , body := Json.obj
             [ ("session", Json.obj
                 [ ("type", Json.str "realtime")
                 , ("model", Json.str "my-model")
                 , ("tools", Json.arr
                     [ Json.obj
                         [ ("type", Json.str "mcp")
                         , ("server_label", Json.str "deepwiki")
                         , ("server_url", Json.str "https://mcp.deepwiki.com/sse")
                         , ("require_approval", Json.str "always") ]
                     , Json.obj
                         [ ("type", Json.str "mcp")
                         , ("server_label", Json.str "dnd")
                         , ("server_url", Json.str "https://dmcp-server.deno.dev/sse")
                         , ("require_approval", Json.str "always") ] ]) ]) ]
         , timeout := 10 }] :=
  outbound_call_shape "sk-test" (by decide)
    (some (Json.obj [("model", Json.str "my-model")])) ⟨"my-model"⟩ rfl
    .networkFailure

/-- Counterexample to C6: with the key present and the upstream answering
status 200 with a body that is not valid JSON, `resp.json()` raises an
uncaught decode error, so the service answers 500 Internal Server Error —
not a 502 UpstreamError with `upstream_error` detail. -/
theorem malformed_upstream_cex :
    (handleRequest (some "sk-test") (some (Json.obj []))
        (.response ⟨200, "plain text, not JSON", none⟩)).1
      = ⟨500, Json.str "Internal Server Error"⟩ ∧
    (handleRequest (some "sk-test") (some (Json.obj []))
        (.response ⟨200, "plain text, not JSON", none⟩)).1.status ≠ 502 :=
  ⟨rfl, by decide⟩

/-- C6 (amended): when the upstream answers a success status with a body
that is not valid JSON, or with valid JSON that is not an object, the
handler raises an uncaught exception (`resp.json()` decode error, or
`data.get` on a non-dict), which FastAPI turns into a 500 Internal Server
Error response — it is not mapped to a 502 UpstreamError. -/
theorem malformed_upstream_unhandled (k : String) (hk : k ≠ "")
    (body : Option Json) (req : TokenRequest)
    (hb : validateTokenRequest body = .ok req)
    (resp : UpstreamResponse) (hs : resp.status < 400) :
    (resp.jsonBody = none →
      (handleRequest (some k) body (.response resp)).1
        = ⟨500, Json.str "Internal Server Error"⟩) ∧
    (∀ j, resp.jsonBody = some j → Json.isObj j = false →
      (handleRequest (some k) body (.response resp)).1
        = ⟨500, Json.str "Internal Server Error"⟩) := by
  have hk' : strFalsy k = false := strFalsy_eq_false hk
  have hs' : ¬ 400 ≤ resp.status := Nat.not_le.mpr hs
  constructor
  · intro hj
    simp [handleRequest, hb, get_token, keyFalsy, hk', hs', hj, renderResult]
  · intro j hj hno
    cases j
    case obj => simp [Json.isObj] at hno
    all_goals
      simp [handleRequest, hb, get_token, keyFalsy, hk', hs', hj, renderResult]

/-- Witness for the amended C6: a 200 response whose body is not JSON, and
a 200 response whose JSON body is an array. -/
theorem malformed_upstream_unhandled_witness :
    (handleRequest (some "sk-test") (some (Json.obj []))
        (.response ⟨200, "plain text", none⟩)).1
      = ⟨500, Json.str "Internal Server Error"⟩ ∧
    (handleRequest (some "sk-test") (some (Json.obj []))
        (.response ⟨200, "[]", some (Json.arr [])⟩)).1
      = ⟨500, Json.str "Internal Server Error"⟩ :=
  ⟨(malformed_upstream_unhandled "sk-test" (by decide) (some (Json.obj []))
      ⟨defaultModel⟩ rfl ⟨200, "plain text", none⟩ (by decide)).1 rfl,
   (malformed_upstream_unhandled "sk-test" (by decide) (some (Json.obj []))
      ⟨defaultModel⟩ rfl ⟨200, "[]", some (Json.arr [])⟩ (by decide)).2
     (Json.arr []) rfl rfl⟩

/-- Counterexample to C7: with the key present, a network failure (or the
10-second timeout) makes `client.post` raise an uncaught `httpx` error,
so the service answers 500 Internal Server Error with no `upstream_error`
key — not a 502 response. -/
theorem network_failure_cex :
    (handleRequest (some "sk-test") (some (Json.obj [])) .networkFailure).1
      = ⟨500, Json.str "Internal Server Error"⟩ ∧
    (handleRequest (some "sk-test") (some (Json.obj [])) .networkFailure).1.status
      ≠ 502 :=
  ⟨rfl, by decide⟩

/-- C7 (amended): when the outbound call fails to reach the upstream, the
`httpx` exception propagates uncaught and the service answers 500 Internal
Server Error (plain body, no `upstream_error` key); the single outbound
attempt is made and not retried, and the failure is not silently
swallowed. -/
theorem network_failure_unhandled (k : String) (hk : k ≠ "")
    (body : Option Json) (req : TokenRequest)
    (hb : validateTokenRequest body = .ok req) :
    (handleRequest (some k) body .networkFailure).1
      = ⟨500, Json.str "Internal Server Error"⟩ ∧
    (handleRequest (some k) body .networkFailure).2
      = [outboundRequest k req.model] := by
  have hk' : strFalsy k = false := strFalsy_eq_false hk
  exact ⟨by simp [handleRequest, hb, get_token, keyFalsy, hk', renderResult],
         handleRequest_calls k hk' body req hb .networkFailure⟩

/-- Witness for the amended C7. -/
theorem network_failure_unhandled_witness :
    (handleRequest (some "sk-test") (some (Json.obj [])) .networkFailure).1
      = ⟨500, Json.str "Internal Server Error"⟩ ∧
    (handleRequest (some "sk-test") (some (Json.obj [])) .networkFailure).2
      = [outboundRequest "sk-test" defaultModel] :=
  network_failure_unhandled "sk-test" (by decide) (some (Json.obj []))
    ⟨defaultModel⟩ rfl

/-- C8: with the key present, each request issues exactly one outbound
call; two sequential identical requests issue two independent calls, and
each run's response is a function of its own upstream outcome only (the
service keeps no state between requests). -/
theorem sequential_requests_independent (k : String) (hk : k ≠ "")
    (body : Option Json) (req : TokenRequest)
    (hb : validateTokenRequest body = .ok req) (u1 u2 : UpstreamOutcome) :
    (handleRequest (some k) body u1).2.length = 1 ∧
    (runTwice (some k) body u1 u2).2.length = 2 ∧
    (runTwice (some k) body u1 u2).1.1 = (handleRequest (some k) body u1).1 ∧
    (runTwice (some k) body u1 u2).1.2 = (handleRequest (some k) body u2).1 := by
  have hk' : strFalsy k = false := strFalsy_eq_false hk
  have h1 := handleRequest_calls k hk' body req hb u1
  have h2 := handleRequest_calls k hk' body req hb u2
  exact ⟨by rw [h1]; rfl, by simp [runTwice, h1, h2], rfl, rfl⟩

/-- Witness for C8: one run succeeding and one failing, each independent. -/
theorem sequential_requests_independent_witness :
    (handleRequest (some "sk-test") (some (Json.obj []))
        (.response ⟨200, "", some (Json.obj [("value", Json.str "tok")])⟩)).2.length
      = 1 ∧
    (runTwice (some "sk-test") (some (Json.obj []))
        (.response ⟨200, "", some (Json.obj [("value", Json.str "tok")])⟩)
        .networkFailure).2.length = 2 ∧
    (runTwice (some "sk-test") (some (Json.obj []))
        (.response ⟨200, "", some (Json.obj [("value", Json.str "tok")])⟩)
        .networkFailure).1.1
      = (handleRequest (some "sk-test") (some (Json.obj []))
          (.response ⟨200, "", some (Json.obj [("value", Json.str "tok")])⟩)).1 ∧
    (runTwice (some "sk-test") (some (Json.obj []))
        (.response ⟨200, "", some (Json.obj [("value", Json.str "tok")])⟩)
        .networkFailure).1.2
      = (handleRequest (some "sk-test") (some (Json.obj [])) .networkFailure).1 :=
  sequential_requests_independent "sk-test" (by decide) (some (Json.obj []))
    ⟨defaultModel⟩ rfl
    (.response ⟨200, "", some (Json.obj [("value", Json.str "tok")])⟩)
    .networkFailure

/-- C9: a JSON object body whose `model` field is not a string fails
pydantic validation, so the service answers 422 before the handler body
runs and performs no outbound call. -/
theorem nonstring_model_rejected (api_key : Option String)
    (fields : List (String × Json)) (j : Json)
    (hj : fields.lookup "model" = some j) (hns : Json.isStr j = false)
    (u : UpstreamOutcome) :
    (handleRequest api_key (some (Json.obj fields)) u).1.status = 422 ∧
    (handleRequest api_key (some (Json.obj fields)) u).2 = [] := by
  have hv : validateTokenRequest (some (Json.obj fields))
      = .error .modelNotString := by
    cases j
    case str => simp [Json.isStr] at hns
    all_goals simp [validateTokenRequest, hj]
  exact ⟨by simp [handleRequest, hv], by simp [handleRequest, hv]⟩

/-- Witness for C9 at body `{"model": 42}`. -/
theorem nonstring_model_rejected_witness :
    (handleRequest (some "sk-test")
        (some (Json.obj [("model", Json.num 42)])) .networkFailure).1.status
      = 422 ∧
    (handleRequest (some "sk-test")
        (some (Json.obj [("model", Json.num 42)])) .networkFailure).2 = [] :=
  nonstring_model_rejected (some "sk-test") [("model", Json.num 42)]
    (Json.num 42) rfl rfl .networkFailure

/-- C10: for any two non-empty secrets, the same body and upstream outcome
produce identical client-visible responses, and outbound traces that agree
on everything but the Authorization header. -/
theorem secret_noninterference (k1 k2 : String) (h1 : k1 ≠ "") (h2 : k2 ≠ "")
    (body : Option Json) (u : UpstreamOutcome) :
    (handleRequest (some k1) body u).1 = (handleRequest (some k2) body u).1 ∧
    (handleRequest (some k1) body u).2.map stripAuth
      = (handleRequest (some k2) body u).2.map stripAuth := by
  have hk1 : strFalsy k1 = false := strFalsy_eq_false h1
  have hk2 : strFalsy k2 = false := strFalsy_eq_false h2
  cases hb : validateTokenRequest body with
  | error e => simp [handleRequest, hb]
  | ok req =>
    refine ⟨?_, ?_⟩
    · cases u with
      | networkFailure =>
        simp [handleRequest, hb, get_token, keyFalsy, hk1, hk2, renderResult]
      | response resp =>
        by_cases hs : 400 ≤ resp.status
        · simp [handleRequest, hb, get_token, keyFalsy, hk1, hk2, hs,
                renderResult]
        · cases hj : resp.jsonBody with
          | none =>
            simp [handleRequest, hb, get_token, keyFalsy, hk1, hk2, hs, hj,
                  renderResult]
          | some j =>
            cases j <;>
              simp [handleRequest, hb, get_token, keyFalsy, hk1, hk2, hs, hj,
                    renderResult]
    · rw [handleRequest_calls k1 hk1 body req hb u,
          handleRequest_calls k2 hk2 body req hb u]
      rfl

/-- Witness for C10: two different secrets, same body and upstream
response, identical client responses and auth-stripped traces. -/
theorem secret_noninterference_witness :
    (handleRequest (some "sk-alpha") (some (Json.obj []))
        (.response ⟨200, "", some (Json.obj [("value", Json.str "tok")])⟩)).1
      = (handleRequest (some "sk-beta") (some (Json.obj []))
          (.response ⟨200, "", some (Json.obj [("value", Json.str "tok")])⟩)).1 ∧
    (handleRequest (some "sk-alpha") (some (Json.obj []))
        (.response ⟨200, "", some (Json.obj [("value", Json.str "tok")])⟩)).2.map
          stripAuth
      = (handleRequest (some "sk-beta") (some (Json.obj []))
          (.response ⟨200, "", some (Json.obj [("value", Json.str "tok")])⟩)).2.map
            stripAuth :=
  secret_noninterference "sk-alpha" "sk-beta" (by decide) (by decide)
    (some (Json.obj []))
    (.response ⟨200, "", some (Json.obj [("value", Json.str "tok")])⟩)
